import Mathlib

/-!
Verification of the ubigen UBI image generator (mtd-utils).

The repository source at hand is the command-line front end
src/ubi-utils/sort-me-out/ubigen.c (option parsing in parse_opt and the
driver main).  The image-construction engine itself (ubigen_create /
ubigen_write_complete and the EC/VID header codec of libubigen) is not
part of the given sources, so it is modelled from the specification,
while the CLI layer is embedded directly from ubigen.c.
-/

/-! ## Basic byte-level helpers -/

/-- Big-endian serialization of a natural number into `w` bytes
(least significant byte last); overflowing bits are dropped. -/
def beBytes : Nat → Nat → List Nat
  | 0, _ => []
  | w + 1, n => beBytes w (n / 256) ++ [n % 256]

/-- Read back a big-endian byte list as a natural number. -/
def natOfBytes (l : List Nat) : Nat :=
  l.foldl (fun a b => a * 256 + b) 0

/-- One shift-and-conditionally-xor step of the reflected CRC-32
polynomial 0xEDB88320. -/
def crc32_step (c : Nat) : Nat :=
  if c % 2 = 1 then (c / 2) ^^^ 0xEDB88320 else c / 2

/-- Fold one input byte into the CRC-32 accumulator: xor the byte in,
then run eight polynomial steps. -/
def crc32_byte (c b : Nat) : Nat :=
  crc32_step (crc32_step (crc32_step (crc32_step
    (crc32_step (crc32_step (crc32_step (crc32_step ((c ^^^ b) % 2 ^ 32))))))))

/-- Modelled from the spec: the standard CRC-32 checksum over a byte
sequence, used by the header codec (the CRC implementation itself lives
outside the given sources). -/
def crc32 (l : List Nat) : Nat :=
  (l.foldl crc32_byte 0xFFFFFFFF) ^^^ 0xFFFFFFFF

/-! ## Data model (modelled from the spec, section 3) -/

/-- Modelled from the spec: volume type enumeration. -/
inductive VolType where
  | Dynamic
  | Static
deriving DecidableEq

/-- Modelled from the spec: immutable flash geometry supplied at session
construction. -/
structure VolumeGeometry where
  peb_size : Nat
  min_io_size : Nat
  sub_page_size : Nat
  vid_hdr_offset : Nat
  alignment : Nat
deriving DecidableEq

/-- Modelled from the spec: per-volume parameters. `data_len` is the
declared total payload size, meaningful for Static volumes only. -/
structure VolumeParams where
  vol_id : Nat
  vol_type : VolType
  erase_counter : Nat
  ubi_ver : Nat
  data_len : Nat
deriving DecidableEq

/-- Modelled from the spec: size in bytes of a serialized EC header. -/
def UBI_EC_HDR_SIZE : Nat := 64

/-- Modelled from the spec: size in bytes of a serialized VID header. -/
def UBI_VID_HDR_SIZE : Nat := 64

/-- Modelled from the spec: magic tag of the EC header. -/
def UBI_EC_HDR_MAGIC : Nat := 0x55424923

/-- Modelled from the spec: magic tag of the VID header. -/
def UBI_VID_HDR_MAGIC : Nat := 0x55424921

/-- Modelled from the spec: usable logical-eraseblock size, the data
area remaining after the VID header, rounded down to a multiple of the
volume alignment. -/
def leb_size (g : VolumeGeometry) : Nat :=
  ((g.peb_size - g.vid_hdr_offset - UBI_VID_HDR_SIZE) / g.alignment) * g.alignment

/-- Modelled from the spec: validity of a geometry, checked at session
construction (section 7, configuration errors). -/
def validGeometry (g : VolumeGeometry) : Prop :=
  0 < g.peb_size ∧ 0 < g.min_io_size ∧ 0 < g.sub_page_size ∧
  g.sub_page_size ≤ g.min_io_size ∧ g.min_io_size ∣ g.peb_size ∧
  0 < g.alignment ∧ UBI_EC_HDR_SIZE ≤ g.vid_hdr_offset ∧
  g.vid_hdr_offset + UBI_VID_HDR_SIZE ≤ g.peb_size ∧ 0 < leb_size g

instance (g : VolumeGeometry) : Decidable (validGeometry g) := by
  unfold validGeometry; infer_instance

/-- Modelled from the spec: fields of the Erase-Counter header (the
trailing header checksum is computed at serialization time). -/
structure ECHeader where
  magic : Nat
  version : Nat
  ec : Nat
  vid_hdr_offset : Nat
  data_offset : Nat
deriving DecidableEq

/-- Modelled from the spec: fields of the Volume-Identifier header (the
trailing header checksum is computed at serialization time). -/
structure VIDHeader where
  magic : Nat
  version : Nat
  vol_type : Nat
  copy_flag : Nat
  compat : Nat
  vol_id : Nat
  lnum : Nat
  sqnum : Nat
  used_bytes : Nat
  data_pad : Nat
  data_crc : Nat
deriving DecidableEq

/-- Modelled from the spec: byte code stored in the VID header for the
volume type. -/
def volTypeCode : VolType → Nat
  | VolType.Dynamic => 1
  | VolType.Static => 2

/-! ## Header codec (modelled from the spec, section 4.1) -/

/-- Modelled from the spec: EC header fields serialized in their defined
order, zero-padded up to the checksum field. -/
def ec_hdr_body (h : ECHeader) : List Nat :=
  beBytes 4 h.magic ++ beBytes 1 h.version ++ beBytes 8 h.ec ++
  beBytes 4 h.vid_hdr_offset ++ beBytes 4 h.data_offset ++
  List.replicate (UBI_EC_HDR_SIZE - 4 - 21) 0

/-- Modelled from the spec: serialize an EC header, appending the CRC-32
of all preceding bytes as the trailing checksum field. -/
def encode_ec_header (h : ECHeader) : List Nat :=
  ec_hdr_body h ++ beBytes 4 (crc32 (ec_hdr_body h))

/-- Modelled from the spec: VID header fields serialized in their
defined order, zero-padded up to the checksum field. -/
def vid_hdr_body (h : VIDHeader) : List Nat :=
  beBytes 4 h.magic ++ beBytes 1 h.version ++ beBytes 1 h.vol_type ++
  beBytes 1 h.copy_flag ++ beBytes 1 h.compat ++ beBytes 4 h.vol_id ++
  beBytes 4 h.lnum ++ beBytes 8 h.sqnum ++ beBytes 4 h.used_bytes ++
  beBytes 4 h.data_pad ++ beBytes 4 h.data_crc ++
  List.replicate (UBI_VID_HDR_SIZE - 4 - 36) 0

/-- Modelled from the spec: serialize a VID header, appending the CRC-32
of all preceding bytes as the trailing checksum field. -/
def encode_vid_header (h : VIDHeader) : List Nat :=
  vid_hdr_body h ++ beBytes 4 (crc32 (vid_hdr_body h))

/-! ## Image builder (modelled from the spec, section 4.2) -/

/-- Modelled from the spec: errors surfaced by the write loop.
`inputShort` is the Static input-contract error, carrying the count of
bytes actually consumed. -/
inductive BuildErr where
  | inputShort (consumed : Nat)
deriving DecidableEq

/-- Modelled from the spec: one emitted physical eraseblock as the
(ECHeader, VIDHeader, payload) triple of section 3. -/
structure PebBlock where
  ec : ECHeader
  vid : VIDHeader
  payload : List Nat
deriving DecidableEq

/-- Modelled from the spec: the EC header built for every physical
eraseblock of a session. -/
def mkECHeader (g : VolumeGeometry) (p : VolumeParams) : ECHeader :=
  { magic := UBI_EC_HDR_MAGIC, version := p.ubi_ver, ec := p.erase_counter,
    vid_hdr_offset := g.vid_hdr_offset,
    data_offset := g.vid_hdr_offset + UBI_VID_HDR_SIZE }

/-- Modelled from the spec: the VID header built for one physical
eraseblock; `used_bytes` and `data_crc` are set only on the final block
of a Static volume, else zero. -/
def mkVIDHeader (g : VolumeGeometry) (p : VolumeParams) (lnum sqnum : Nat)
    (payload : List Nat) (isLast : Bool) : VIDHeader :=
  { magic := UBI_VID_HDR_MAGIC, version := p.ubi_ver,
    vol_type := volTypeCode p.vol_type, copy_flag := 0, compat := 0,
    vol_id := p.vol_id, lnum := lnum, sqnum := sqnum,
    used_bytes := if isLast then payload.length else 0,
    data_pad := g.peb_size - g.vid_hdr_offset - UBI_VID_HDR_SIZE - leb_size g,
    data_crc := if isLast then crc32 payload else 0 }

/-- Modelled from the spec: the block record assembled in step (d) of
the Writing state. -/
def mkBlock (g : VolumeGeometry) (p : VolumeParams) (lnum sqnum : Nat)
    (payload : List Nat) (isLast : Bool) : PebBlock :=
  { ec := mkECHeader g p, vid := mkVIDHeader g p lnum sqnum payload isLast,
    payload := payload }

/-- Modelled from the spec: number of payload bytes read in one loop
iteration — up to `leb_size`, bounded by the remaining input, and for a
Static volume also by the remaining declared length. -/
def readAmount (g : VolumeGeometry) (p : VolumeParams)
    (consumed inputLen : Nat) : Nat :=
  match p.vol_type with
  | VolType.Dynamic => min (leb_size g) inputLen
  | VolType.Static => min (min (leb_size g) (p.data_len - consumed)) inputLen

/-- Modelled from the spec: the per-eraseblock write loop of the Image
Builder (section 4.2 Writing state).  The first argument is recursion
fuel; one block consumes at least one input byte, so fuel exceeding the
input length makes the fuel bound unreachable. -/
def writeLoop (g : VolumeGeometry) (p : VolumeParams) :
    Nat → List Nat → Nat → Nat → Nat → List PebBlock × Option BuildErr
  | 0, _, _, _, _ => ([], none)
  | fuel + 1, input, lnum, sqnum, consumed =>
    if p.vol_type = VolType.Static ∧ p.data_len ≤ consumed then
      ([], none)
    else if readAmount g p consumed input.length = 0 then
      match p.vol_type with
      | VolType.Dynamic => ([], none)
      | VolType.Static => ([], some (BuildErr.inputShort consumed))
    else
      (mkBlock g p lnum sqnum (input.take (readAmount g p consumed input.length))
          (decide (p.vol_type = VolType.Static ∧
            p.data_len ≤ consumed + readAmount g p consumed input.length)) ::
        (writeLoop g p fuel (input.drop (readAmount g p consumed input.length))
          (lnum + 1) (sqnum + 1)
          (consumed + readAmount g p consumed input.length)).1,
       (writeLoop g p fuel (input.drop (readAmount g p consumed input.length))
          (lnum + 1) (sqnum + 1)
          (consumed + readAmount g p consumed input.length)).2)

/-- Modelled from the spec: the complete-volume write operation — run
the write loop from lnum = 0, sqnum = 0, zero bytes consumed, returning
the emitted blocks and an optional fatal error. -/
def ubigen_write_complete (g : VolumeGeometry) (p : VolumeParams)
    (input : List Nat) : List PebBlock × Option BuildErr :=
  writeLoop g p (input.length + 1) input 0 0 0

/-- Modelled from the spec: the byte stream emitted for one block —
EC header, gap padding, VID header, payload, tail padding. -/
def blockBytes (g : VolumeGeometry) (b : PebBlock) : List Nat :=
  encode_ec_header b.ec ++
  List.replicate (g.vid_hdr_offset - UBI_EC_HDR_SIZE) 0 ++
  encode_vid_header b.vid ++ b.payload ++
  List.replicate
    (g.peb_size - g.vid_hdr_offset - UBI_VID_HDR_SIZE - b.payload.length) 0

/-! ## Helper lemmas for the engine model -/

theorem beBytes_length (w : Nat) : ∀ n, (beBytes w n).length = w := by
  induction w with
  | zero => intro n; rfl
  | succ w ih => intro n; simp [beBytes, ih]

theorem ec_hdr_body_length (h : ECHeader) : (ec_hdr_body h).length = 60 := by
  simp [ec_hdr_body, beBytes_length, UBI_EC_HDR_SIZE]

theorem vid_hdr_body_length (h : VIDHeader) : (vid_hdr_body h).length = 60 := by
  simp [vid_hdr_body, beBytes_length, UBI_VID_HDR_SIZE]

theorem encode_ec_header_length (h : ECHeader) :
    (encode_ec_header h).length = UBI_EC_HDR_SIZE := by
  simp [encode_ec_header, ec_hdr_body_length, beBytes_length, UBI_EC_HDR_SIZE]

theorem encode_vid_header_length (h : VIDHeader) :
    (encode_vid_header h).length = UBI_VID_HDR_SIZE := by
  simp [encode_vid_header, vid_hdr_body_length, beBytes_length, UBI_VID_HDR_SIZE]

theorem leb_size_le (g : VolumeGeometry) :
    leb_size g ≤ g.peb_size - g.vid_hdr_offset - UBI_VID_HDR_SIZE :=
  Nat.div_mul_le_self _ _

theorem readAmount_le_len (g : VolumeGeometry) (p : VolumeParams)
    (c n : Nat) : readAmount g p c n ≤ n := by
  unfold readAmount; cases p.vol_type <;> simp

theorem readAmount_le_leb (g : VolumeGeometry) (p : VolumeParams)
    (c n : Nat) : readAmount g p c n ≤ leb_size g := by
  unfold readAmount; cases p.vol_type <;> simp

theorem crc32_step_lt (c : Nat) (h : c < 2 ^ 32) : crc32_step c < 2 ^ 32 := by
  unfold crc32_step
  split
  · exact Nat.xor_lt_two_pow (by omega) (by norm_num)
  · omega

theorem crc32_byte_lt (c b : Nat) : crc32_byte c b < 2 ^ 32 := by
  unfold crc32_byte
  have h0 : (c ^^^ b) % 2 ^ 32 < 2 ^ 32 := Nat.mod_lt _ (by norm_num)
  exact crc32_step_lt _ (crc32_step_lt _ (crc32_step_lt _ (crc32_step_lt _
    (crc32_step_lt _ (crc32_step_lt _ (crc32_step_lt _ (crc32_step_lt _ h0)))))))

theorem crc32_foldl_lt (l : List Nat) : ∀ c, c < 2 ^ 32 →
    l.foldl crc32_byte c < 2 ^ 32 := by
  induction l with
  | nil => intro c h; simpa using h
  | cons x xs ih => intro c h; simpa using ih _ (crc32_byte_lt c x)

theorem crc32_lt (l : List Nat) : crc32 l < 2 ^ 32 := by
  unfold crc32
  exact Nat.xor_lt_two_pow (crc32_foldl_lt l _ (by norm_num)) (by norm_num)

theorem natOfBytes_append (l : List Nat) (b : Nat) :
    natOfBytes (l ++ [b]) = natOfBytes l * 256 + b := by
  unfold natOfBytes
  rw [List.foldl_append]
  rfl

theorem natOfBytes_beBytes (w : Nat) : ∀ n, natOfBytes (beBytes w n) = n % 256 ^ w := by
  induction w with
  | zero => intro n; simp [beBytes, natOfBytes, Nat.mod_one]
  | succ w ih =>
    intro n
    show natOfBytes (beBytes w (n / 256) ++ [n % 256]) = n % 256 ^ (w + 1)
    rw [natOfBytes_append, ih, pow_succ, mul_comm (256 ^ w) 256, Nat.mod_mul]
    ring

theorem natOfBytes_beBytes4_crc (l : List Nat) :
    natOfBytes (beBytes 4 (crc32 l)) = crc32 l := by
  rw [natOfBytes_beBytes]
  have h4 : (256 : Nat) ^ 4 = 2 ^ 32 := by norm_num
  rw [h4]
  exact Nat.mod_eq_of_lt (crc32_lt l)

theorem encode_ec_header_crc (h : ECHeader) :
    natOfBytes ((encode_ec_header h).drop (UBI_EC_HDR_SIZE - 4)) =
      crc32 ((encode_ec_header h).take (UBI_EC_HDR_SIZE - 4)) := by
  have h60 : UBI_EC_HDR_SIZE - 4 = (ec_hdr_body h).length := by
    rw [ec_hdr_body_length]; norm_num [UBI_EC_HDR_SIZE]
  unfold encode_ec_header
  rw [h60, List.take_left, List.drop_left, natOfBytes_beBytes4_crc]

theorem encode_vid_header_crc (h : VIDHeader) :
    natOfBytes ((encode_vid_header h).drop (UBI_VID_HDR_SIZE - 4)) =
      crc32 ((encode_vid_header h).take (UBI_VID_HDR_SIZE - 4)) := by
  have h60 : UBI_VID_HDR_SIZE - 4 = (vid_hdr_body h).length := by
    rw [vid_hdr_body_length]; norm_num [UBI_VID_HDR_SIZE]
  unfold encode_vid_header
  rw [h60, List.take_left, List.drop_left, natOfBytes_beBytes4_crc]

theorem writeLoop_mem (g : VolumeGeometry) (p : VolumeParams) :
    ∀ fuel input lnum sqnum consumed b,
      b ∈ (writeLoop g p fuel input lnum sqnum consumed).1 →
      ∃ l s pl isl, b = mkBlock g p l s pl isl ∧ pl.length ≤ leb_size g := by
  intro fuel
  induction fuel with
  | zero => intro input l s c b hb; simp [writeLoop] at hb
  | succ fuel ih =>
    intro input l s c b hb
    rw [writeLoop] at hb
    by_cases h1 : p.vol_type = VolType.Static ∧ p.data_len ≤ c
    · rw [if_pos h1] at hb; simp at hb
    · rw [if_neg h1] at hb
      by_cases h2 : readAmount g p c input.length = 0
      · rw [if_pos h2] at hb
        cases hv : p.vol_type <;> simp [hv] at hb
      · rw [if_neg h2] at hb
        simp only [List.mem_cons] at hb
        rcases hb with hb | hb
        · refine ⟨l, s, _, _, hb, ?_⟩
          rw [List.length_take]
          have := readAmount_le_leb g p c input.length
          omega
        · exact ih _ _ _ _ b hb

theorem writeLoop_lnum_sqnum (g : VolumeGeometry) (p : VolumeParams) :
    ∀ fuel input l s c i b,
      (writeLoop g p fuel input l s c).1.get? i = some b →
      b.vid.lnum = l + i ∧ b.vid.sqnum = s + i := by
  intro fuel
  induction fuel with
  | zero => intro input l s c i b hb; simp [writeLoop] at hb
  | succ fuel ih =>
    intro input l s c i b hb
    rw [writeLoop] at hb
    by_cases h1 : p.vol_type = VolType.Static ∧ p.data_len ≤ c
    · rw [if_pos h1] at hb; simp at hb
    · rw [if_neg h1] at hb
      by_cases h2 : readAmount g p c input.length = 0
      · rw [if_pos h2] at hb
        cases hv : p.vol_type <;> rw [hv] at hb <;> simp at hb
      · rw [if_neg h2] at hb
        dsimp only at hb
        cases i with
        | zero =>
          rw [List.get?_cons_zero] at hb
          cases hb
          constructor <;> simp [mkBlock, mkVIDHeader]
        | succ i =>
          rw [List.get?_cons_succ] at hb
          have := ih _ _ _ _ i b hb
          omega

theorem writeLoop_static_short (g : VolumeGeometry) (p : VolumeParams)
    (hst : p.vol_type = VolType.Static) (hleb : 0 < leb_size g) :
    ∀ fuel input l s c,
      input.length < fuel → c + input.length < p.data_len →
      (writeLoop g p fuel input l s c).2 =
        some (BuildErr.inputShort (c + input.length)) := by
  intro fuel
  induction fuel with
  | zero => intro input l s c h0 _; omega
  | succ fuel ih =>
    intro input l s c hfuel hshort
    rw [writeLoop]
    have h1 : ¬(p.vol_type = VolType.Static ∧ p.data_len ≤ c) := by
      rintro ⟨-, h⟩; omega
    rw [if_neg h1]
    have hra : readAmount g p c input.length =
        min (min (leb_size g) (p.data_len - c)) input.length := by
      unfold readAmount; rw [hst]
    by_cases h2 : readAmount g p c input.length = 0
    · rw [if_pos h2]
      have hlen : input.length = 0 := by rw [hra] at h2; omega
      rw [hst]
      simp [hlen]
    · rw [if_neg h2]
      dsimp only
      have hr_le : readAmount g p c input.length ≤ input.length :=
        readAmount_le_len g p c input.length
      have hr_pos : 0 < readAmount g p c input.length := Nat.pos_of_ne_zero h2
      have hrec := ih (input.drop (readAmount g p c input.length)) (l + 1) (s + 1)
        (c + readAmount g p c input.length)
        (by rw [List.length_drop]; omega)
        (by rw [List.length_drop]; omega)
      rw [hrec, List.length_drop]
      have harith : c + readAmount g p c input.length +
          (input.length - readAmount g p c input.length) = c + input.length := by omega
      rw [harith]

theorem writeLoop_static_ok (g : VolumeGeometry) (p : VolumeParams)
    (hst : p.vol_type = VolType.Static) (hleb : 0 < leb_size g) :
    ∀ fuel input l s c,
      input.length < fuel → c < p.data_len → p.data_len - c ≤ input.length →
      ∃ bs lastb,
        writeLoop g p fuel input l s c = (bs ++ [lastb], none) ∧
        (∀ b ∈ bs, b.vid.used_bytes = 0 ∧ b.vid.data_crc = 0) ∧
        lastb.vid.used_bytes = lastb.payload.length ∧
        lastb.vid.data_crc = crc32 lastb.payload ∧
        lastb.payload.length =
          (if (p.data_len - c) % leb_size g = 0 then leb_size g
           else (p.data_len - c) % leb_size g) := by
  intro fuel
  induction fuel with
  | zero => intro input l s c h0 _ _; omega
  | succ fuel ih =>
    intro input l s c hfuel hc hlen
    rw [writeLoop]
    have h1 : ¬(p.vol_type = VolType.Static ∧ p.data_len ≤ c) := by
      rintro ⟨-, h⟩; omega
    rw [if_neg h1]
    have hra : readAmount g p c input.length =
        min (min (leb_size g) (p.data_len - c)) input.length := by
      unfold readAmount; rw [hst]
    have hr : readAmount g p c input.length =
        min (leb_size g) (p.data_len - c) := by rw [hra]; omega
    have h2 : ¬readAmount g p c input.length = 0 := by rw [hr]; omega
    rw [if_neg h2, hr]
    by_cases hcase : p.data_len - c ≤ leb_size g
    · have hrD : min (leb_size g) (p.data_len - c) = p.data_len - c := by omega
      rw [hrD]
      have hdec : decide (p.vol_type = VolType.Static ∧
          p.data_len ≤ c + (p.data_len - c)) = true :=
        decide_eq_true ⟨hst, by omega⟩
      rw [hdec]
      have hrec : writeLoop g p fuel (input.drop (p.data_len - c)) (l + 1) (s + 1)
          (c + (p.data_len - c)) = ([], none) := by
        cases fuel with
        | zero => rfl
        | succ fuel2 => rw [writeLoop, if_pos ⟨hst, by omega⟩]
      rw [hrec]
      refine ⟨[], mkBlock g p l s (input.take (p.data_len - c)) true,
        by simp, by simp, ?_, ?_, ?_⟩
      · simp [mkBlock, mkVIDHeader]
      · simp [mkBlock, mkVIDHeader]
      · simp only [mkBlock, mkVIDHeader, List.length_take]
        by_cases heq : p.data_len - c = leb_size g
        · rw [heq, Nat.mod_self, if_pos rfl]; omega
        · have hlt : p.data_len - c < leb_size g := by omega
          rw [Nat.mod_eq_of_lt hlt, if_neg (by omega)]
          omega
    · have hrD : min (leb_size g) (p.data_len - c) = leb_size g := by omega
      rw [hrD]
      have hdec : decide (p.vol_type = VolType.Static ∧
          p.data_len ≤ c + leb_size g) = false :=
        decide_eq_false (by rintro ⟨-, hh⟩; omega)
      rw [hdec]
      obtain ⟨bs, lastb, heq, hbs, hu, hcrc, hplen⟩ :=
        ih (input.drop (leb_size g)) (l + 1) (s + 1) (c + leb_size g)
          (by rw [List.length_drop]; omega)
          (by omega)
          (by rw [List.length_drop]; omega)
      rw [heq]
      refine ⟨mkBlock g p l s (input.take (leb_size g)) false :: bs, lastb,
        by simp, ?_, hu, hcrc, ?_⟩
      · intro b hb
        rcases List.mem_cons.mp hb with rfl | hb
        · constructor <;> simp [mkBlock, mkVIDHeader]
        · exact hbs b hb
      · rw [hplen]
        have hmod : (p.data_len - (c + leb_size g)) % leb_size g =
            (p.data_len - c) % leb_size g := by
          have hsplit : p.data_len - c =
              leb_size g + (p.data_len - (c + leb_size g)) := by omega
          rw [hsplit, Nat.add_mod_left]
        rw [hmod]

/-! ## Claim theorems for the image builder -/

/-- C1: for every valid geometry and every input stream, each
physical-eraseblock chunk emitted by the complete-volume write operation
has length exactly peb_size, laid out as EC header, gap padding, VID
header, payload, tail padding. -/
theorem C1_peb_chunk_layout (g : VolumeGeometry) (p : VolumeParams)
    (input : List Nat) (hg : validGeometry g) :
    ∀ b ∈ (ubigen_write_complete g p input).1,
      (blockBytes g b).length = g.peb_size ∧
      blockBytes g b =
        encode_ec_header b.ec ++
        List.replicate (g.vid_hdr_offset - UBI_EC_HDR_SIZE) 0 ++
        encode_vid_header b.vid ++ b.payload ++
        List.replicate (g.peb_size - g.vid_hdr_offset - UBI_VID_HDR_SIZE -
          b.payload.length) 0 := by
  intro b hb
  obtain ⟨l, s, pl, isl, rfl, hlen⟩ := writeLoop_mem g p _ input 0 0 0 b hb
  refine ⟨?_, rfl⟩
  have hle := leb_size_le g
  obtain ⟨h1, h2, h3, h4, h5, h6, h7, h8, h9⟩ := hg
  simp only [blockBytes, mkBlock, List.length_append, List.length_replicate,
    encode_ec_header_length, encode_vid_header_length]
  omega

/-- C2: within one session the lnum values of successive emitted blocks
form the contiguous sequence 0, 1, 2, ... and the sqnum values start at
0 and increase by exactly 1 per emitted block. -/
theorem C2_lnum_sqnum_sequence (g : VolumeGeometry) (p : VolumeParams)
    (input : List Nat) :
    ∀ i b, (ubigen_write_complete g p input).1.get? i = some b →
      b.vid.lnum = i ∧ b.vid.sqnum = i := by
  intro i b hb
  have h := writeLoop_lnum_sqnum g p _ input 0 0 0 i b hb
  omega

/-- C3: a Static session whose input yields fewer bytes than the
declared data length fails with the input-contract error carrying the
count of bytes actually consumed (the model terminates emission at the
point the shortfall is detected). -/
theorem C3_static_short_input (g : VolumeGeometry) (p : VolumeParams)
    (input : List Nat) (hg : validGeometry g)
    (hst : p.vol_type = VolType.Static)
    (hshort : input.length < p.data_len) :
    (ubigen_write_complete g p input).2 =
      some (BuildErr.inputShort input.length) := by
  obtain ⟨h1, h2, h3, h4, h5, h6, h7, h8, h9⟩ := hg
  have h := writeLoop_static_short g p hst h9 (input.length + 1) input 0 0 0
    (by omega) (by omega)
  simpa [ubigen_write_complete] using h

/-- C4: for every block emitted in a Dynamic session, recomputing the
CRC-32 over the serialized bytes of its EC header and of its VID header
(excluding the trailing checksum field) reproduces exactly the stored
checksum. -/
theorem C4_header_crc_roundtrip (g : VolumeGeometry) (p : VolumeParams)
    (input : List Nat) (hdyn : p.vol_type = VolType.Dynamic)
    (b : PebBlock) (hb : b ∈ (ubigen_write_complete g p input).1) :
    natOfBytes ((encode_ec_header b.ec).drop (UBI_EC_HDR_SIZE - 4)) =
      crc32 ((encode_ec_header b.ec).take (UBI_EC_HDR_SIZE - 4)) ∧
    natOfBytes ((encode_vid_header b.vid).drop (UBI_VID_HDR_SIZE - 4)) =
      crc32 ((encode_vid_header b.vid).take (UBI_VID_HDR_SIZE - 4)) :=
  ⟨encode_ec_header_crc b.ec, encode_vid_header_crc b.vid⟩

/-- C5: a Static session that completes successfully emits only blocks
with zero used_bytes and data_crc before the final one; the final
block's used_bytes equals declared length mod leb_size (leb_size when
the declared length is an exact multiple), is non-zero, equals the true
payload length, and its data_crc is the CRC-32 of that payload. -/
theorem C5_static_final_block (g : VolumeGeometry) (p : VolumeParams)
    (input : List Nat) (hg : validGeometry g)
    (hst : p.vol_type = VolType.Static) (hpos : 0 < p.data_len)
    (hlen : p.data_len ≤ input.length) :
    ∃ bs lastb,
      ubigen_write_complete g p input = (bs ++ [lastb], none) ∧
      (∀ b ∈ bs, b.vid.used_bytes = 0 ∧ b.vid.data_crc = 0) ∧
      lastb.vid.used_bytes =
        (if p.data_len % leb_size g = 0 then leb_size g
         else p.data_len % leb_size g) ∧
      lastb.vid.used_bytes ≠ 0 ∧
      lastb.vid.used_bytes = lastb.payload.length ∧
      lastb.vid.data_crc = crc32 lastb.payload := by
  obtain ⟨h1, h2, h3, h4, h5, h6, h7, h8, h9⟩ := hg
  obtain ⟨bs, lastb, heq, hbs, hu, hcrc, hplen⟩ :=
    writeLoop_static_ok g p hst h9 (input.length + 1) input 0 0 0
      (by omega) (by omega) (by omega)
  rw [Nat.sub_zero] at hplen
  refine ⟨bs, lastb, heq, hbs, ?_, ?_, hu, hcrc⟩
  · rw [hu, hplen]
  · rw [hu, hplen]
    split
    · omega
    · next hne => exact hne

/-! ## Concrete fixtures for the image-builder claims -/

/-- Sample geometry for the claim witnesses: leb_size = 4. -/
def gW : VolumeGeometry :=
  { peb_size := 132, min_io_size := 4, sub_page_size := 4,
    vid_hdr_offset := 64, alignment := 1 }

/-- Sample Dynamic volume parameters. -/
def pDynW : VolumeParams :=
  { vol_id := 5, vol_type := VolType.Dynamic, erase_counter := 0,
    ubi_ver := 0, data_len := 0 }

/-- Sample Static volume parameters declaring 6 payload bytes. -/
def pStatW : VolumeParams :=
  { vol_id := 5, vol_type := VolType.Static, erase_counter := 0,
    ubi_ver := 0, data_len := 6 }

/-- Witness for C1 at a concrete session. -/
theorem C1_witness :
    validGeometry gW ∧
    mkBlock gW pDynW 0 0 [1, 2, 3] false ∈
      (ubigen_write_complete gW pDynW [1, 2, 3]).1 ∧
    ((blockBytes gW (mkBlock gW pDynW 0 0 [1, 2, 3] false)).length =
        gW.peb_size ∧
      blockBytes gW (mkBlock gW pDynW 0 0 [1, 2, 3] false) =
        encode_ec_header (mkBlock gW pDynW 0 0 [1, 2, 3] false).ec ++
        List.replicate (gW.vid_hdr_offset - UBI_EC_HDR_SIZE) 0 ++
        encode_vid_header (mkBlock gW pDynW 0 0 [1, 2, 3] false).vid ++
        (mkBlock gW pDynW 0 0 [1, 2, 3] false).payload ++
        List.replicate (gW.peb_size - gW.vid_hdr_offset - UBI_VID_HDR_SIZE -
          (mkBlock gW pDynW 0 0 [1, 2, 3] false).payload.length) 0) :=
  ⟨by decide, by decide,
    C1_peb_chunk_layout gW pDynW [1, 2, 3] (by decide) _ (by decide)⟩

/-- Witness for C2 at a concrete session. -/
theorem C2_witness :
    (ubigen_write_complete gW pDynW [1, 2, 3, 4, 5]).1.get? 1 =
      some (mkBlock gW pDynW 1 1 [5] false) ∧
    ((mkBlock gW pDynW 1 1 [5] false).vid.lnum = 1 ∧
      (mkBlock gW pDynW 1 1 [5] false).vid.sqnum = 1) :=
  ⟨by decide, C2_lnum_sqnum_sequence gW pDynW [1, 2, 3, 4, 5] 1 _ (by decide)⟩

/-- Witness for C3 at a concrete session. -/
theorem C3_witness :
    validGeometry gW ∧ pStatW.vol_type = VolType.Static ∧
    ([1, 2, 3] : List Nat).length < pStatW.data_len ∧
    (ubigen_write_complete gW pStatW [1, 2, 3]).2 =
      some (BuildErr.inputShort ([1, 2, 3] : List Nat).length) :=
  ⟨by decide, rfl, by decide,
    C3_static_short_input gW pStatW [1, 2, 3] (by decide) rfl (by decide)⟩

/-- Witness for C4 at a concrete session. -/
theorem C4_witness :
    pDynW.vol_type = VolType.Dynamic ∧
    mkBlock gW pDynW 0 0 [1, 2, 3] false ∈
      (ubigen_write_complete gW pDynW [1, 2, 3]).1 ∧
    (natOfBytes ((encode_ec_header (mkBlock gW pDynW 0 0 [1, 2, 3] false).ec).drop
        (UBI_EC_HDR_SIZE - 4)) =
      crc32 ((encode_ec_header (mkBlock gW pDynW 0 0 [1, 2, 3] false).ec).take
        (UBI_EC_HDR_SIZE - 4)) ∧
    natOfBytes ((encode_vid_header (mkBlock gW pDynW 0 0 [1, 2, 3] false).vid).drop
        (UBI_VID_HDR_SIZE - 4)) =
      crc32 ((encode_vid_header (mkBlock gW pDynW 0 0 [1, 2, 3] false).vid).take
        (UBI_VID_HDR_SIZE - 4))) :=
  ⟨rfl, by decide,
    C4_header_crc_roundtrip gW pDynW [1, 2, 3] rfl _ (by decide)⟩

/-- Witness for C5 at a concrete session. -/
theorem C5_witness :
    validGeometry gW ∧ pStatW.vol_type = VolType.Static ∧
    0 < pStatW.data_len ∧
    pStatW.data_len ≤ ([1, 2, 3, 4, 5, 6] : List Nat).length ∧
    (∃ bs lastb,
      ubigen_write_complete gW pStatW [1, 2, 3, 4, 5, 6] =
        (bs ++ [lastb], none) ∧
      (∀ b ∈ bs, b.vid.used_bytes = 0 ∧ b.vid.data_crc = 0) ∧
      lastb.vid.used_bytes =
        (if pStatW.data_len % leb_size gW = 0 then leb_size gW
         else pStatW.data_len % leb_size gW) ∧
      lastb.vid.used_bytes ≠ 0 ∧
      lastb.vid.used_bytes = lastb.payload.length ∧
      lastb.vid.data_crc = crc32 lastb.payload) :=
  ⟨by decide, rfl, by decide, by decide,
    C5_static_final_block gW pStatW [1, 2, 3, 4, 5, 6] (by decide) rfl
      (by decide) (by decide)⟩

/-! ## CLI layer, embedded from src/ubi-utils/sort-me-out/ubigen.c -/

/-- The flattened argument bag of ubigen.c (struct args, lines 40-52).
File pointers are modelled by whether a stream was successfully
opened. -/
structure CliArgs where
  fp_in : Bool
  fp_out : Bool
  peb_size : Int
  id : Int
  min_io_size : Int
  vtype : VolType
  sub_page_size : Int
  alignment : Int
  vid_hdr_offs : Int
  ec : Int
  ubi_ver : Int
deriving DecidableEq

/-- The initializer of the global args (ubigen.c lines 54-66): UBI
version defaults to 0, sub-page size and the mandatory sizes to -1,
alignment to 1, volume type to dynamic. -/
def args_default : CliArgs :=
  { fp_in := false, fp_out := false, peb_size := -1, id := -1,
    min_io_size := -1, vtype := VolType.Dynamic, sub_page_size := -1,
    alignment := 1, vid_hdr_offs := 0, ec := 0, ubi_ver := 0 }

/-- The default for the -x (ubi-ver) option documented by the help text of
ubigen.c (optionsstr, line 98: the option description ends in
"(default is 1)"). -/
def documented_ubi_ver_default : Int := 1

/-- The short-option string passed to getopt_long (ubigen.c line 131). -/
def optstring : String := "i:o:b:I:m:t:s:a:O:e:x:hV"

/-- The long-option table (ubigen.c lines 108-123), as
(name, has_arg, short key) triples. -/
def long_options : List (String × Bool × Char) :=
  [("infile", true, 'i'), ("outfile", true, 'o'), ("peb-size", true, 'b'),
   ("vol-id", true, 'I'), ("min-io-size", true, 'm'), ("type", true, 't'),
   ("sub-page-size", true, 's'), ("alignment", true, 'a'),
   ("vid-hdr-offset", true, 'O'), ("erase-counter", true, 'e'),
   ("ubi-ver", true, 'x'), ("help", false, 'h'), ("version", false, 'V')]

/-- One parsed command-line option, carrying the already-converted
numeric argument where the C code applies strtoul/strtoull.  For the
size options, the optional multiplier models the result of
ubiutils_get_multiplier on a trailing KiB/MiB/GiB suffix (that helper
returns -1 for an unknown suffix).  For the file options, the flag
models whether fopen succeeded. -/
inductive CliOpt where
  | infile (opened : Bool)
  | outfile (opened : Bool)
  | peb_size (v : Int) (mult : Option Int)
  | min_io_size (v : Int) (mult : Option Int)
  | erase_counter (v : Int)
  | vol_id (v : Int)
  | vol_type_arg (s : String)
  | ubi_ver (v : Int)
  | vid_hdr_offset_arg (v : Int)
  | sub_page_size_arg (v : Int)
  | alignment_arg (v : Int)
deriving DecidableEq

/-- Apply the optional KiB/MiB/GiB multiplier the way ubigen.c does
after strtoull: no suffix leaves the value; an unknown suffix
(get_multiplier returned -1) is an error; otherwise multiply. -/
def apply_mult (v : Int) (mult : Option Int) : Except Unit Int :=
  match mult with
  | none => Except.ok v
  | some m => if m = -1 then Except.error () else Except.ok (v * m)

/-- One iteration of the parse_opt switch (ubigen.c lines 136-249).
The option table and optstring declare 's' and 'a', but the switch has
no case for them, so they fall into the default branch, which fails. -/
def parse_opt_step (a : CliArgs) : CliOpt → Except Unit CliArgs
  | CliOpt.outfile opened =>
    if opened then Except.ok { a with fp_out := true } else Except.error ()
  | CliOpt.infile opened =>
    if opened then Except.ok { a with fp_in := true } else Except.error ()
  | CliOpt.peb_size v mult =>
    if v ≤ 0 then Except.error ()
    else
      match apply_mult v mult with
      | Except.error e => Except.error e
      | Except.ok v2 => Except.ok { a with peb_size := v2 }
  | CliOpt.min_io_size v mult =>
    if v ≤ 0 then Except.error ()
    else
      match apply_mult v mult with
      | Except.error e => Except.error e
      | Except.ok v2 => Except.ok { a with min_io_size := v2 }
  | CliOpt.erase_counter v =>
    if v < 0 then Except.error () else Except.ok { a with ec := v }
  | CliOpt.vol_id v =>
    if v < 0 then Except.error () else Except.ok { a with id := v }
  | CliOpt.vol_type_arg s =>
    if s = "dynamic" then Except.ok { a with vtype := VolType.Dynamic }
    else if s = "static" then Except.ok { a with vtype := VolType.Static }
    else Except.error ()
  | CliOpt.ubi_ver v =>
    if v < 0 then Except.error () else Except.ok { a with ubi_ver := v }
  | CliOpt.vid_hdr_offset_arg v =>
    if v < 0 then Except.error () else Except.ok { a with vid_hdr_offs := v }
  | CliOpt.sub_page_size_arg _ => Except.error ()
  | CliOpt.alignment_arg _ => Except.error ()

/-- The getopt_long loop of parse_opt: fold the switch over the parsed
options, stopping at the first failure. -/
def parse_opt_loop : CliArgs → List CliOpt → Except Unit CliArgs
  | a, [] => Except.ok a
  | a, o :: rest =>
    match parse_opt_step a o with
    | Except.error e => Except.error e
    | Except.ok a2 => parse_opt_loop a2 rest

/-- Output defaulting of parse_opt (ubigen.c lines 257-258): if no
output file was opened, fall back to stdout. -/
def with_default_out (a : CliArgs) : CliArgs :=
  if a.fp_out = false then { a with fp_out := true } else a

/-- The checks after the getopt loop (ubigen.c lines 252-280): input
file mandatory, output defaults to stdout, volume ID and both sizes
mandatory, and sub-page size defaults to the minimum I/O unit size. -/
def parse_post (a0 : CliArgs) : Except Unit CliArgs :=
  if a0.fp_in = false then Except.error ()
  else if (with_default_out a0).id < 0 then Except.error ()
  else if (with_default_out a0).peb_size < 0 then Except.error ()
  else if (with_default_out a0).min_io_size < 0 then Except.error ()
  else if (with_default_out a0).sub_page_size < 0 then
    Except.ok { with_default_out a0 with
      sub_page_size := (with_default_out a0).min_io_size }
  else Except.ok (with_default_out a0)

/-- parse_opt of ubigen.c: the getopt loop followed by the mandatory
checks and defaulting. -/
def parse_opt (opts : List CliOpt) : Except Unit CliArgs :=
  match parse_opt_loop args_default opts with
  | Except.error e => Except.error e
  | Except.ok a => parse_post a

/-- The argument tuple main passes to ubigen_create
(ubigen.c lines 303-306). -/
structure CreateCall where
  vol_id : Int
  vtype : VolType
  peb_size : Int
  ec : Int
  alignment : Int
  ubi_ver : Int
  vid_hdr_offs : Int
  input_len : Int
deriving DecidableEq

/-- main of ubigen.c up to the ubigen_create call: if parse_opt fails,
main returns before any session is constructed; otherwise it calls
fstat, only prints a warning when fstat fails, and unconditionally
reads file_info.st_size (modelled by st_size, arbitrary when fstat_ok
is false) as the input length for ubigen_create. -/
def main_create_call (opts : List CliOpt) (fstat_ok : Bool) (st_size : Int) :
    Option CreateCall :=
  match parse_opt opts with
  | Except.error _ => none
  | Except.ok a =>
    some { vol_id := a.id, vtype := a.vtype, peb_size := a.peb_size,
           ec := a.ec, alignment := a.alignment, ubi_ver := a.ubi_ver,
           vid_hdr_offs := a.vid_hdr_offs, input_len := st_size }

/-! ## Helper lemmas for the CLI layer -/

theorem with_default_out_sub (a : CliArgs) :
    (with_default_out a).sub_page_size = a.sub_page_size := by
  unfold with_default_out; split <;> rfl

theorem with_default_out_min_io (a : CliArgs) :
    (with_default_out a).min_io_size = a.min_io_size := by
  unfold with_default_out; split <;> rfl

theorem with_default_out_alignment (a : CliArgs) :
    (with_default_out a).alignment = a.alignment := by
  unfold with_default_out; split <;> rfl

theorem with_default_out_ubi_ver (a : CliArgs) :
    (with_default_out a).ubi_ver = a.ubi_ver := by
  unfold with_default_out; split <;> rfl

theorem parse_opt_step_ok (a : CliArgs) (o : CliOpt) (a2 : CliArgs)
    (h : parse_opt_step a o = Except.ok a2) :
    a2.sub_page_size = a.sub_page_size ∧ a2.alignment = a.alignment ∧
    (a2.ubi_ver = a.ubi_ver ∨ ∃ v, o = CliOpt.ubi_ver v) := by
  cases o <;>
    (simp only [parse_opt_step, apply_mult] at h
     repeat' split at h
     all_goals simp_all
     all_goals (subst h; simp))

theorem parse_opt_loop_ok : ∀ (opts : List CliOpt) (a0 a : CliArgs),
    parse_opt_loop a0 opts = Except.ok a →
    a.sub_page_size = a0.sub_page_size ∧ a.alignment = a0.alignment ∧
    ((∀ v, CliOpt.ubi_ver v ∉ opts) → a.ubi_ver = a0.ubi_ver) := by
  intro opts
  induction opts with
  | nil =>
    intro a0 a h
    simp only [parse_opt_loop] at h
    cases h
    exact ⟨rfl, rfl, fun _ => rfl⟩
  | cons o rest ih =>
    intro a0 a h
    simp only [parse_opt_loop] at h
    cases hstep : parse_opt_step a0 o with
    | error e => rw [hstep] at h; simp at h
    | ok a1 =>
      rw [hstep] at h
      obtain ⟨hs, hal, hu⟩ := ih a1 a h
      obtain ⟨hs2, hal2, hu2⟩ := parse_opt_step_ok a0 o a1 hstep
      refine ⟨hs.trans hs2, hal.trans hal2, ?_⟩
      intro hno
      have h1 : a.ubi_ver = a1.ubi_ver :=
        hu (fun v hv => hno v (List.mem_cons_of_mem o hv))
      rcases hu2 with h2 | ⟨v, rfl⟩
      · rw [h1, h2]
      · exact absurd (List.mem_cons_self _ _) (hno v)

theorem parse_opt_loop_error (bad : CliOpt)
    (hbad : ∀ a, parse_opt_step a bad = Except.error ()) :
    ∀ (opts : List CliOpt) (a0 : CliArgs), bad ∈ opts →
      parse_opt_loop a0 opts = Except.error () := by
  intro opts
  induction opts with
  | nil => intro a0 h; simp at h
  | cons o rest ih =>
    intro a0 hmem
    simp only [parse_opt_loop]
    rcases List.mem_cons.mp hmem with rfl | hmem
    · rw [hbad a0]
    · cases hstep : parse_opt_step a0 o with
      | error e => rfl
      | ok a2 => exact ih a2 hmem

theorem parse_post_ok (a0 a : CliArgs) (h : parse_post a0 = Except.ok a) :
    a.alignment = a0.alignment ∧ a.ubi_ver = a0.ubi_ver ∧
    a.min_io_size = a0.min_io_size ∧
    (a0.sub_page_size < 0 → a.sub_page_size = a.min_io_size) := by
  unfold parse_post at h
  split at h
  · simp at h
  · split at h
    · simp at h
    · split at h
      · simp at h
      · split at h
        · simp at h
        · split at h
          · cases h
            refine ⟨with_default_out_alignment a0, with_default_out_ubi_ver a0,
              with_default_out_min_io a0, fun _ => ?_⟩
            simp [with_default_out_min_io]
          · cases h
            refine ⟨with_default_out_alignment a0, with_default_out_ubi_ver a0,
              with_default_out_min_io a0, fun hsub => ?_⟩
            next hge =>
              rw [with_default_out_sub a0] at hge
              omega

/-! ## Claim theorems for the CLI layer -/

/-- C6: an invocation supplying a non-positive peb_size or min_io_size
value fails option parsing (the switch rejects the value before any
session is constructed) and main produces no create call. -/
theorem C6_bad_size_rejected (opts : List CliOpt)
    (hbad : ∃ v mult, v ≤ 0 ∧
      (CliOpt.peb_size v mult ∈ opts ∨ CliOpt.min_io_size v mult ∈ opts)) :
    (∀ a, parse_opt opts ≠ Except.ok a) ∧
    (∀ fstat_ok st_size, main_create_call opts fstat_ok st_size = none) := by
  obtain ⟨v, mult, hv, hmem⟩ := hbad
  have herr : parse_opt_loop args_default opts = Except.error () := by
    rcases hmem with hmem | hmem
    · exact parse_opt_loop_error _
        (fun a => by simp [parse_opt_step, hv]) opts args_default hmem
    · exact parse_opt_loop_error _
        (fun a => by simp [parse_opt_step, hv]) opts args_default hmem
  constructor
  · intro a h
    unfold parse_opt at h
    rw [herr] at h
    simp at h
  · intro f st
    unfold main_create_call parse_opt
    rw [herr]

/-- C7: when sub_page_size is not supplied, the parsed configuration
has sub_page_size equal to min_io_size, and in particular
sub_page_size is at most min_io_size. -/
theorem C7_sub_page_size_default (opts : List CliOpt) (a : CliArgs)
    (hno : ∀ v, CliOpt.sub_page_size_arg v ∉ opts)
    (h : parse_opt opts = Except.ok a) :
    a.sub_page_size = a.min_io_size ∧ a.sub_page_size ≤ a.min_io_size := by
  suffices hs : a.sub_page_size = a.min_io_size from ⟨hs, le_of_eq hs⟩
  unfold parse_opt at h
  cases hloop : parse_opt_loop args_default opts with
  | error e => rw [hloop] at h; simp at h
  | ok a1 =>
    rw [hloop] at h
    have hsub1 : a1.sub_page_size = -1 :=
      (parse_opt_loop_ok opts _ a1 hloop).1
    exact (parse_post_ok a1 a h).2.2.2 (by rw [hsub1]; norm_num)

/-- C8: the sub-page-size and alignment options appear in the long
option table and optstring, yet the switch has no case for them, so
supplying either makes parsing fail; consequently every successfully
parsed configuration has sub_page_size = min_io_size and
alignment = 1. -/
theorem C8_missing_switch_cases (opts : List CliOpt)
    (hsup : (∃ v, CliOpt.sub_page_size_arg v ∈ opts) ∨
            (∃ v, CliOpt.alignment_arg v ∈ opts)) :
    ("sub-page-size", true, 's') ∈ long_options ∧
    ("alignment", true, 'a') ∈ long_options ∧
    's' ∈ optstring.toList ∧ 'a' ∈ optstring.toList ∧
    (∀ a v, parse_opt_step a (CliOpt.sub_page_size_arg v) = Except.error () ∧
            parse_opt_step a (CliOpt.alignment_arg v) = Except.error ()) ∧
    (∀ a, parse_opt opts ≠ Except.ok a) ∧
    (∀ opts2 a, parse_opt opts2 = Except.ok a →
      a.sub_page_size = a.min_io_size ∧ a.alignment = 1) := by
  refine ⟨by decide, by decide, by decide, by decide, ?_, ?_, ?_⟩
  · intro a v
    exact ⟨rfl, rfl⟩
  · have herr : parse_opt_loop args_default opts = Except.error () := by
      rcases hsup with ⟨v, hmem⟩ | ⟨v, hmem⟩
      · exact parse_opt_loop_error (CliOpt.sub_page_size_arg v)
          (fun a => rfl) opts args_default hmem
      · exact parse_opt_loop_error (CliOpt.alignment_arg v)
          (fun a => rfl) opts args_default hmem
    intro a h
    unfold parse_opt at h
    rw [herr] at h
    simp at h
  · intro opts2 a h
    unfold parse_opt at h
    cases hloop : parse_opt_loop args_default opts2 with
    | error e => rw [hloop] at h; simp at h
    | ok a1 =>
      rw [hloop] at h
      have hlk := parse_opt_loop_ok opts2 _ a1 hloop
      have hpost := parse_post_ok a1 a h
      constructor
      · exact hpost.2.2.2 (by rw [hlk.1]; norm_num [args_default])
      · rw [hpost.1, hlk.2.1]; rfl

/-- C9: when fstat fails, main continues anyway, reads st_size from the
stat buffer, and passes it to ubigen_create as the input length — the
create call is identical to the one made when fstat succeeds. -/
theorem C9_fstat_failure_ignored (opts : List CliOpt) (st_size : Int)
    (a : CliArgs) (h : parse_opt opts = Except.ok a) :
    main_create_call opts false st_size =
      some { vol_id := a.id, vtype := a.vtype, peb_size := a.peb_size,
             ec := a.ec, alignment := a.alignment, ubi_ver := a.ubi_ver,
             vid_hdr_offs := a.vid_hdr_offs, input_len := st_size } ∧
    main_create_call opts false st_size = main_create_call opts true st_size := by
  unfold main_create_call
  rw [h]
  exact ⟨rfl, rfl⟩

/-- C10: without the ubi-ver option the UBI version passed to
ubigen_create is 0, although the help text documents the default
as 1. -/
theorem C10_ubi_ver_default_zero (opts : List CliOpt) (a : CliArgs)
    (hno : ∀ v, CliOpt.ubi_ver v ∉ opts)
    (h : parse_opt opts = Except.ok a) :
    a.ubi_ver = 0 ∧
    documented_ubi_ver_default = 1 ∧
    a.ubi_ver ≠ documented_ubi_ver_default ∧
    (∀ fstat_ok st_size c, main_create_call opts fstat_ok st_size = some c →
      c.ubi_ver = 0) := by
  have hz : a.ubi_ver = 0 := by
    unfold parse_opt at h
    cases hloop : parse_opt_loop args_default opts with
    | error e => rw [hloop] at h; simp at h
    | ok a1 =>
      rw [hloop] at h
      have h1 := (parse_opt_loop_ok opts _ a1 hloop).2.2 hno
      have h2 := (parse_post_ok a1 a h).2.1
      rw [h2, h1]
      rfl
  refine ⟨hz, rfl, by rw [hz]; decide, ?_⟩
  intro f st c hc
  unfold main_create_call at hc
  rw [h] at hc
  simp only [Option.some.injEq] at hc
  subst hc
  exact hz

/-! ## Concrete fixtures for the CLI claims -/

/-- A well-formed option list: input file, volume ID, peb size and
min I/O size supplied. -/
def optsGood : List CliOpt :=
  [CliOpt.infile true, CliOpt.vol_id 1, CliOpt.peb_size 64 none,
   CliOpt.min_io_size 4 none]

/-- The configuration produced by parsing optsGood. -/
def argsGood : CliArgs :=
  { fp_in := true, fp_out := true, peb_size := 64, id := 1, min_io_size := 4,
    vtype := VolType.Dynamic, sub_page_size := 4, alignment := 1,
    vid_hdr_offs := 0, ec := 0, ubi_ver := 0 }

/-- An option list supplying a zero peb size. -/
def optsBadPeb : List CliOpt := [CliOpt.infile true, CliOpt.peb_size 0 none]

/-- An option list supplying the sub-page-size option. -/
def optsSubPage : List CliOpt :=
  [CliOpt.infile true, CliOpt.sub_page_size_arg 4]

/-- Witness for C6 at a concrete invocation. -/
theorem C6_witness :
    (∃ v mult, v ≤ 0 ∧ (CliOpt.peb_size v mult ∈ optsBadPeb ∨
      CliOpt.min_io_size v mult ∈ optsBadPeb)) ∧
    parse_opt optsBadPeb ≠ Except.ok args_default ∧
    main_create_call optsBadPeb true 0 = none :=
  ⟨⟨0, none, by decide, Or.inl (by decide)⟩,
   (C6_bad_size_rejected optsBadPeb
     ⟨0, none, by decide, Or.inl (by decide)⟩).1 args_default,
   (C6_bad_size_rejected optsBadPeb
     ⟨0, none, by decide, Or.inl (by decide)⟩).2 true 0⟩

/-- Witness for C7 at a concrete invocation. -/
theorem C7_witness :
    (∀ v, CliOpt.sub_page_size_arg v ∉ optsGood) ∧
    parse_opt optsGood = Except.ok argsGood ∧
    (argsGood.sub_page_size = argsGood.min_io_size ∧
     argsGood.sub_page_size ≤ argsGood.min_io_size) :=
  ⟨fun v hv => by simp [optsGood] at hv, by rfl,
   C7_sub_page_size_default optsGood argsGood
     (fun v hv => by simp [optsGood] at hv) (by rfl)⟩

/-- Witness for C8 at a concrete invocation. -/
theorem C8_witness :
    ((∃ v, CliOpt.sub_page_size_arg v ∈ optsSubPage) ∨
     (∃ v, CliOpt.alignment_arg v ∈ optsSubPage)) ∧
    parse_opt optsSubPage ≠ Except.ok args_default ∧
    (argsGood.sub_page_size = argsGood.min_io_size ∧
     argsGood.alignment = 1) :=
  ⟨Or.inl ⟨4, by decide⟩,
   (C8_missing_switch_cases optsSubPage
     (Or.inl ⟨4, by decide⟩)).2.2.2.2.2.1 args_default,
   (C8_missing_switch_cases optsSubPage
     (Or.inl ⟨4, by decide⟩)).2.2.2.2.2.2 optsGood argsGood (by rfl)⟩

/-- Witness for C9 at a concrete invocation. -/
theorem C9_witness :
    parse_opt optsGood = Except.ok argsGood ∧
    main_create_call optsGood false 42 =
      some { vol_id := argsGood.id, vtype := argsGood.vtype,
             peb_size := argsGood.peb_size, ec := argsGood.ec,
             alignment := argsGood.alignment, ubi_ver := argsGood.ubi_ver,
             vid_hdr_offs := argsGood.vid_hdr_offs, input_len := 42 } ∧
    main_create_call optsGood false 42 = main_create_call optsGood true 42 :=
  ⟨by rfl,
   (C9_fstat_failure_ignored optsGood 42 argsGood (by rfl)).1,
   (C9_fstat_failure_ignored optsGood 42 argsGood (by rfl)).2⟩

/-- Witness for C10 at a concrete invocation. -/
theorem C10_witness :
    (∀ v, CliOpt.ubi_ver v ∉ optsGood) ∧
    parse_opt optsGood = Except.ok argsGood ∧
    argsGood.ubi_ver = 0 ∧
    documented_ubi_ver_default = 1 ∧
    argsGood.ubi_ver ≠ documented_ubi_ver_default :=
  ⟨fun v hv => by simp [optsGood] at hv, by rfl,
   (C10_ubi_ver_default_zero optsGood argsGood
     (fun v hv => by simp [optsGood] at hv) (by rfl)).1,
   (C10_ubi_ver_default_zero optsGood argsGood
     (fun v hv => by simp [optsGood] at hv) (by rfl)).2.1,
   (C10_ubi_ver_default_zero optsGood argsGood
     (fun v hv => by simp [optsGood] at hv) (by rfl)).2.2.1⟩
